import Mathlib

/-!
Verification of the 1D Kalman filter (`kalman_filter_1d.cpp`) and its
simulation driver (`kalman_filter_1d_demo.cpp`).

The filter state and its two operations are embedded shallowly: the four
`double` fields become rationals, the mutating member functions become pure
state-to-state functions, and the demo's per-tick loop body becomes a pure
transition function on a driver state, parameterized by the two Gaussian
noise samples drawn on that tick.
-/

/-- The filter class of `kalman_filter_1d.cpp`: estimate `μ`, uncertainty
`sigma`, and the two fixed noise parameters. -/
structure kalman_filter_1d where
  μ : ℚ
  sigma : ℚ
  process_noise : ℚ
  measurement_noise : ℚ
  deriving DecidableEq

/-- The constructor `kalman_filter_1d::kalman_filter_1d`: it stores the four
arguments into the four fields and performs no other computation and no
validation. -/
def kalman_filter_1d.construct (init_μ init_sigma process_noise measurement_noise : ℚ) :
    kalman_filter_1d :=
  { μ := init_μ
    sigma := init_sigma
    process_noise := process_noise
    measurement_noise := measurement_noise }

/-- `kalman_filter_1d::predict`: `μ = μ + u; sigma = sigma + process_noise;`. -/
def kalman_filter_1d.predict (f : kalman_filter_1d) (u : ℚ) : kalman_filter_1d :=
  { f with
      μ := f.μ + u
      sigma := f.sigma + f.process_noise }

/-- `kalman_filter_1d::correct_by_measurement`:
`μ = (measurement_noise * μ + sigma * z) / (measurement_noise + sigma);`
then `sigma = 1.0 / (1.0/measurement_noise + 1.0/sigma);` (the `μ` update
reads the old `sigma`, and the `sigma` update does not read `μ`, so the
simultaneous record update is faithful to the sequential source). -/
def kalman_filter_1d.correct_by_measurement (f : kalman_filter_1d) (z : ℚ) :
    kalman_filter_1d :=
  { f with
      μ := (f.measurement_noise * f.μ + f.sigma * z) / (f.measurement_noise + f.sigma)
      sigma := 1 / (1 / f.measurement_noise + 1 / f.sigma) }

/-- `kalman_filter_1d::get_current_state_estimate`: returns `μ`. -/
def kalman_filter_1d.get_current_state_estimate (f : kalman_filter_1d) : ℚ := f.μ

/-- `kalman_filter_1d::get_current_uncertainty`: returns `sigma`. -/
def kalman_filter_1d.get_current_uncertainty (f : kalman_filter_1d) : ℚ := f.sigma

/-- One call made on the filter: either a predict or a correct step. -/
inductive kf_op where
  | predict_step (u : ℚ)
  | correct_step (z : ℚ)
  deriving DecidableEq

/-- Apply one filter call. -/
def kalman_filter_1d.run_op (f : kalman_filter_1d) : kf_op → kalman_filter_1d
  | .predict_step u => f.predict u
  | .correct_step z => f.correct_by_measurement z

/-- Apply a sequence of filter calls, left to right. -/
def kalman_filter_1d.run_ops (f : kalman_filter_1d) : List kf_op → kalman_filter_1d
  | [] => f
  | op :: ops => (f.run_op op).run_ops ops

/-- The demo driver's incremental running-average update
`avg = (avg*N + e) / (N+1.0)` from step 7 of the loop in
`kalman_filter_1d_demo.cpp`. -/
def update_running_avg (avg N e : ℚ) : ℚ := (avg * N + e) / (N + 1)

/-- Fold the incremental running-average update over a list of samples,
starting from accumulator `avg` and step count `n` (as the demo does with
`N = (double)simulation_step`). -/
def run_avg : ℚ → ℕ → List ℚ → ℚ
  | avg, _, [] => avg
  | avg, n, e :: es => run_avg (update_running_avg avg (n : ℚ) e) (n + 1) es

/-- The mutable state of the demo's `main` loop in
`kalman_filter_1d_demo.cpp`: the naive estimate `μ_naive_est`, the
ground-truth position `μ`, the filter `myFilter`, the three running error
averages, and `simulation_step`. -/
structure sim_state where
  naive_est : ℚ
  ground_truth : ℚ
  myFilter : kalman_filter_1d
  error_measurement : ℚ
  error_naive : ℚ
  error_kf : ℚ
  simulation_step : ℕ
  deriving DecidableEq

/-- One iteration of the demo's `while` loop (visualization excluded), with
the two Gaussian samples of this tick passed in as `n_p` (process noise,
added to the ground truth) and `n_m` (measurement noise, added to the
measurement). Steps in source order: naive estimate, ground truth,
measurement `z`, `predict`, `correct_by_measurement`, the three
running-average updates (using the pre-increment step count `N`), and the
step-count increment. -/
def sim_tick (s : sim_state) (u n_p n_m : ℚ) : sim_state :=
  let naive := s.naive_est + u
  let gt := s.ground_truth + u + n_p
  let z := gt + n_m
  let f1 := s.myFilter.predict u
  let f2 := f1.correct_by_measurement z
  let N : ℚ := (s.simulation_step : ℚ)
  { naive_est := naive
    ground_truth := gt
    myFilter := f2
    error_measurement := update_running_avg s.error_measurement N |z - gt|
    error_naive := update_running_avg s.error_naive N |naive - gt|
    error_kf := update_running_avg s.error_kf N |f2.get_current_state_estimate - gt|
    simulation_step := s.simulation_step + 1 }

/-- Claim C1: for every filter state with `uncertainty > 0` and
`measurement_noise > 0`, after `correct(z)` the new estimate equals
`(measurement_noise*old_estimate + old_uncertainty*z) / (measurement_noise +
old_uncertainty)` and the new uncertainty equals
`1 / (1/measurement_noise + 1/old_uncertainty)`, exactly. -/
theorem C1_correct_formulas (f : kalman_filter_1d) (z : ℚ)
    (hσ : 0 < f.sigma) (hm : 0 < f.measurement_noise) :
    (f.correct_by_measurement z).μ =
        (f.measurement_noise * f.μ + f.sigma * z) / (f.measurement_noise + f.sigma) ∧
      (f.correct_by_measurement z).sigma =
        1 / (1 / f.measurement_noise + 1 / f.sigma) :=
  ⟨rfl, rfl⟩

/-- Witness for C1 at the demo's initial state `(μ=5, sigma=0.75,
process_noise=10, measurement_noise=10)` and measurement `z = 7`. -/
theorem C1_correct_formulas_witness :
    (kalman_filter_1d.correct_by_measurement ⟨5, 3/4, 10, 10⟩ 7).μ =
        (10 * 5 + (3/4) * 7) / (10 + 3/4) ∧
      (kalman_filter_1d.correct_by_measurement ⟨5, 3/4, 10, 10⟩ 7).sigma =
        1 / (1 / 10 + 1 / (3/4)) :=
  C1_correct_formulas ⟨5, 3/4, 10, 10⟩ 7 (by norm_num) (by norm_num)

/-- Claim C2: for every filter state and control `u`, `predict(u)` sets the
estimate to `old_estimate + u` and the uncertainty to
`old_uncertainty + process_noise`, and changes nothing else (the two noise
parameters are untouched); it is total, so it has no failure modes. -/
theorem C2_predict_formulas (f : kalman_filter_1d) (u : ℚ) :
    (f.predict u).μ = f.μ + u ∧
      (f.predict u).sigma = f.sigma + f.process_noise ∧
      (f.predict u).process_noise = f.process_noise ∧
      (f.predict u).measurement_noise = f.measurement_noise :=
  ⟨rfl, rfl, rfl, rfl⟩

/-- Counterexample to claim C3 as stated: constructing with
`measurement_noise = -1 ≤ 0` does not fail and does not refuse to produce a
filter — the constructor returns a filter that stores the invalid parameter
unchanged. -/
theorem C3_counterexample :
    kalman_filter_1d.construct 5 1 10 (-1) =
      { μ := 5, sigma := 1, process_noise := 10, measurement_noise := -1 } :=
  rfl

/-- Claim C3 as amended: the constructor performs no parameter validation at
all; for every arguments, including `measurement_noise ≤ 0`, it succeeds and
stores the four values unchanged. No `InvalidParameter` error exists in the
code. -/
theorem C3_construct_stores_params (a b c d : ℚ) :
    kalman_filter_1d.construct a b c d =
      { μ := a, sigma := b, process_noise := c, measurement_noise := d } :=
  rfl

/-- Claim C7: if `measurement_noise` equals the current (positive)
uncertainty, the corrected estimate is the arithmetic mean of the old
estimate and the measurement. -/
theorem C7_equal_noise_gives_mean (f : kalman_filter_1d) (z : ℚ)
    (hσ : 0 < f.sigma) (he : f.measurement_noise = f.sigma) :
    (f.correct_by_measurement z).μ = (f.μ + z) / 2 := by
  have hne : f.sigma ≠ 0 := ne_of_gt hσ
  show (f.measurement_noise * f.μ + f.sigma * z) / (f.measurement_noise + f.sigma) = (f.μ + z) / 2
  rw [he]
  field_simp
  ring

/-- Witness for C7: with `sigma = measurement_noise = 10`, estimate `5` and
measurement `7`, the corrected estimate is `6 = (5+7)/2`. -/
theorem C7_equal_noise_gives_mean_witness :
    (kalman_filter_1d.correct_by_measurement ⟨5, 10, 10, 10⟩ 7).μ = (5 + 7) / 2 :=
  C7_equal_noise_gives_mean ⟨5, 10, 10, 10⟩ 7 (by norm_num) rfl

/-- Counterexample to claim C4 as stated: invoking `correct_by_measurement`
on a filter whose uncertainty is `0` raises nothing and is guarded by
nothing — the call returns normally (here with the estimate left at `5` and
the noise parameters untouched). -/
theorem C4_counterexample :
    (kalman_filter_1d.correct_by_measurement ⟨5, 0, 10, 10⟩ 7).μ = 5 ∧
      (kalman_filter_1d.correct_by_measurement ⟨5, 0, 10, 10⟩ 7).process_noise = 10 ∧
      (kalman_filter_1d.correct_by_measurement ⟨5, 0, 10, 10⟩ 7).measurement_noise = 10 := by
  refine ⟨?_, rfl, rfl⟩
  show ((10 : ℚ) * 5 + 0 * 7) / (10 + 0) = 5
  norm_num

/-- Claim C4 as amended: `correct_by_measurement` contains no guard against
zero uncertainty and raises no `InvalidState` error; with `uncertainty = 0`
(and a nonzero `measurement_noise`) the division is simply executed and the
call returns normally, leaving the estimate unchanged. -/
theorem C4_no_guard_returns_normally (f : kalman_filter_1d) (z : ℚ)
    (h0 : f.sigma = 0) (hm : f.measurement_noise ≠ 0) :
    (f.correct_by_measurement z).μ = f.μ := by
  show (f.measurement_noise * f.μ + f.sigma * z) / (f.measurement_noise + f.sigma) = f.μ
  rw [h0]
  field_simp

/-- Witness for the amended C4 at the concrete zero-uncertainty state. -/
theorem C4_no_guard_returns_normally_witness :
    (kalman_filter_1d.correct_by_measurement ⟨5, 0, 10, 10⟩ 7).μ = 5 :=
  C4_no_guard_returns_normally ⟨5, 0, 10, 10⟩ 7 rfl (by norm_num)

/-- Claim C5: with `uncertainty > 0` and `measurement_noise > 0`, a correct
step never increases the uncertainty, and in fact strictly decreases it (the
hypotheses exclude the degenerate zero-noise case). -/
theorem C5_correct_decreases_uncertainty (f : kalman_filter_1d) (z : ℚ)
    (hσ : 0 < f.sigma) (hm : 0 < f.measurement_noise) :
    (f.correct_by_measurement z).sigma ≤ f.sigma ∧
      (f.correct_by_measurement z).sigma < f.sigma := by
  have hne : f.sigma ≠ 0 := ne_of_gt hσ
  have hlt : (f.correct_by_measurement z).sigma < f.sigma := by
    show 1 / (1 / f.measurement_noise + 1 / f.sigma) < f.sigma
    have hpos : (0 : ℚ) < 1 / f.measurement_noise + 1 / f.sigma := by positivity
    rw [div_lt_iff₀ hpos, mul_add, mul_one_div_cancel hne]
    have : (0 : ℚ) < f.sigma * (1 / f.measurement_noise) := by positivity
    linarith
  exact ⟨le_of_lt hlt, hlt⟩

/-- Witness for C5 at the demo's initial state with measurement `z = 7`:
the uncertainty drops from `3/4`. -/
theorem C5_correct_decreases_uncertainty_witness :
    (kalman_filter_1d.correct_by_measurement ⟨5, 3/4, 10, 10⟩ 7).sigma ≤ 3/4 ∧
      (kalman_filter_1d.correct_by_measurement ⟨5, 3/4, 10, 10⟩ 7).sigma < 3/4 :=
  C5_correct_decreases_uncertainty ⟨5, 3/4, 10, 10⟩ 7 (by norm_num) (by norm_num)

/-- `predict` keeps a positive uncertainty positive when the process noise
is non-negative, and leaves both noise parameters unchanged. -/
theorem predict_preserves_pos (f : kalman_filter_1d) (u : ℚ)
    (hσ : 0 < f.sigma) (hp : 0 ≤ f.process_noise) :
    0 < (f.predict u).sigma := by
  show 0 < f.sigma + f.process_noise
  linarith

/-- `correct_by_measurement` keeps a positive uncertainty positive when the
measurement noise is positive. -/
theorem correct_preserves_pos (f : kalman_filter_1d) (z : ℚ)
    (hσ : 0 < f.sigma) (hm : 0 < f.measurement_noise) :
    0 < (f.correct_by_measurement z).sigma := by
  show 0 < 1 / (1 / f.measurement_noise + 1 / f.sigma)
  positivity

/-- Claim C6: strict positivity of the uncertainty is an invariant — from
any state with `uncertainty > 0`, `process_noise ≥ 0` and
`measurement_noise > 0`, every sequence of `predict` and `correct` calls
leaves the uncertainty strictly positive. -/
theorem C6_sigma_pos_invariant (f : kalman_filter_1d) (ops : List kf_op)
    (hσ : 0 < f.sigma) (hp : 0 ≤ f.process_noise) (hm : 0 < f.measurement_noise) :
    0 < (f.run_ops ops).sigma := by
  induction ops generalizing f with
  | nil => exact hσ
  | cons op ops ih =>
    cases op with
    | predict_step u =>
      exact ih (f.predict u) (predict_preserves_pos f u hσ hp) hp hm
    | correct_step z =>
      exact ih (f.correct_by_measurement z) (correct_preserves_pos f z hσ hm) hp hm

/-- Witness for C6: a concrete predict/correct/predict/correct run from the
demo's initial state keeps the uncertainty positive. -/
theorem C6_sigma_pos_invariant_witness :
    0 < ((⟨5, 3/4, 10, 10⟩ : kalman_filter_1d).run_ops
      [.predict_step 3, .correct_step 7, .predict_step 3, .correct_step 2]).sigma :=
  C6_sigma_pos_invariant ⟨5, 3/4, 10, 10⟩
    [.predict_step 3, .correct_step 7, .predict_step 3, .correct_step 2]
    (by norm_num) (by norm_num) (by norm_num)

/-- Folding the running-average update over `es` starting from the exact
mean of a prefix `s / n` (with `s = 0` whenever the count `n` is `0`) yields
the exact mean of the whole sequence. -/
theorem run_avg_from_mean (es : List ℚ) : ∀ (n : ℕ) (s : ℚ), (n = 0 → s = 0) →
    run_avg (s / (n : ℚ)) n es = (s + es.sum) / ((n : ℚ) + es.length) := by
  induction es with
  | nil =>
    intro n s _
    simp [run_avg]
  | cons e es ih =>
    intro n s h
    have hstep : update_running_avg (s / (n : ℚ)) (n : ℚ) e = (s + e) / ((n : ℚ) + 1) := by
      rcases Nat.eq_zero_or_pos n with hn | hn
      · subst hn
        rw [h rfl]
        simp [update_running_avg]
      · have hne : ((n : ℚ)) ≠ 0 := Nat.cast_ne_zero.mpr (Nat.pos_iff_ne_zero.mp hn)
        rw [update_running_avg, div_mul_cancel₀ s hne]
    rw [run_avg, hstep]
    have h2 : ((n : ℚ) + 1) = ((n + 1 : ℕ) : ℚ) := by push_cast; ring
    rw [h2, ih (n + 1) (s + e) (by omega)]
    have h3 : ((n + 1 : ℕ) : ℚ) = (n : ℚ) + 1 := by push_cast; ring
    rw [h3]
    congr 1
    · rw [List.sum_cons]
      ring
    · rw [List.length_cons]
      push_cast
      ring

/-- Claim C8: the driver's incremental running-average update, started from
`avg = 0` and step count `0`, computes after `k` steps exactly the
arithmetic mean of the first `k` per-step absolute errors; the same update
formula `update_running_avg` is the one `sim_tick` applies to each of the
three error series. -/
theorem C8_running_avg_is_mean (errors : List ℚ) (k : ℕ) :
    run_avg 0 0 (errors.take k) =
      (errors.take k).sum / ((errors.take k).length : ℚ) := by
  have h := run_avg_from_mean (errors.take k) 0 0 (fun _ => rfl)
  simpa using h

/-- Claim C9: one simulation tick, given this tick's Gaussian samples `n_p`
and `n_m`, performs exactly and in source order: the naive estimate gains
`u`; the ground truth gains `u + n_p`; the measurement is the new ground
truth plus `n_m`; the filter does `predict u` then `correct_by_measurement`
of that measurement; each of the three error averages is updated by the
incremental-mean formula with the pre-increment step count and the
absolute error of its estimator against the new ground truth; and the step
count is incremented. -/
theorem C9_sim_tick_spec (s : sim_state) (u n_p n_m : ℚ) :
    sim_tick s u n_p n_m =
      { naive_est := s.naive_est + u
        ground_truth := s.ground_truth + u + n_p
        myFilter := (s.myFilter.predict u).correct_by_measurement
          (s.ground_truth + u + n_p + n_m)
        error_measurement :=
          (s.error_measurement * (s.simulation_step : ℚ) +
            |s.ground_truth + u + n_p + n_m - (s.ground_truth + u + n_p)|) /
              ((s.simulation_step : ℚ) + 1)
        error_naive :=
          (s.error_naive * (s.simulation_step : ℚ) +
            |s.naive_est + u - (s.ground_truth + u + n_p)|) /
              ((s.simulation_step : ℚ) + 1)
        error_kf :=
          (s.error_kf * (s.simulation_step : ℚ) +
            |((s.myFilter.predict u).correct_by_measurement
                (s.ground_truth + u + n_p + n_m)).μ - (s.ground_truth + u + n_p)|) /
              ((s.simulation_step : ℚ) + 1)
        simulation_step := s.simulation_step + 1 } :=
  rfl

/-- Claim C10: with `uncertainty > 0` and `measurement_noise > 0`, the
corrected estimate is a convex combination of the old estimate and the
measurement: it lies between `min(old_estimate, z)` and
`max(old_estimate, z)`. -/
theorem C10_correct_estimate_between (f : kalman_filter_1d) (z : ℚ)
    (hσ : 0 < f.sigma) (hm : 0 < f.measurement_noise) :
    min f.μ z ≤ (f.correct_by_measurement z).μ ∧
      (f.correct_by_measurement z).μ ≤ max f.μ z := by
  have hd : (0 : ℚ) < f.measurement_noise + f.sigma := by linarith
  have hcorr : (f.correct_by_measurement z).μ =
      (f.measurement_noise * f.μ + f.sigma * z) / (f.measurement_noise + f.sigma) := rfl
  constructor
  · rcases le_total f.μ z with h | h
    · rw [min_eq_left h, hcorr, le_div_iff₀ hd]
      nlinarith
    · rw [min_eq_right h, hcorr, le_div_iff₀ hd]
      nlinarith
  · rcases le_total f.μ z with h | h
    · rw [max_eq_right h, hcorr, div_le_iff₀ hd]
      nlinarith
    · rw [max_eq_left h, hcorr, div_le_iff₀ hd]
      nlinarith

/-- Witness for C10 at the demo's initial state and measurement `z = 7`:
the corrected estimate lies between `5` and `7`. -/
theorem C10_correct_estimate_between_witness :
    min (5 : ℚ) 7 ≤ (kalman_filter_1d.correct_by_measurement ⟨5, 3/4, 10, 10⟩ 7).μ ∧
      (kalman_filter_1d.correct_by_measurement ⟨5, 3/4, 10, 10⟩ 7).μ ≤ max (5 : ℚ) 7 :=
  C10_correct_estimate_between ⟨5, 3/4, 10, 10⟩ 7 (by norm_num) (by norm_num)
